import Mathlib

/-!
Verification of the Huggingface dataset crawler (`Huggingface_crawler.py`).

Python strings are modelled as `List Char` at the lower layer, wrapped into
`String` at the model's API.  Python dicts (which preserve insertion order)
are modelled as association lists with replace-or-append assignment.
Selenium driver queries are external nondeterminism and are modelled as
environments supplying, per link / organization, the texts found on the page
or the fact that a query raised.
-/

namespace HFCrawler

/-- The apostrophe character (code 39). -/
def apos : Char := Char.ofNat 39

/-- The double-quote character (code 34). -/
def quotc : Char := Char.ofNat 34

/-- Whitespace test used for splitting and normalisation. -/
def isWs (c : Char) : Bool := c.isWhitespace

/-- `wordsAux l cur` splits `l` into maximal runs of non-whitespace
characters; `cur` is the reversed word accumulated so far. -/
def wordsAux : List Char → List Char → List (List Char)
  | [], [] => []
  | [], cur => [cur.reverse]
  | c :: cs, cur =>
    if isWs c then
      if cur = [] then wordsAux cs [] else cur.reverse :: wordsAux cs []
    else wordsAux cs (c :: cur)

/-- Whitespace-separated words of a character list (Python `str.split()`
with no argument: empty words are dropped). -/
def splitWords (l : List Char) : List (List Char) := wordsAux l []

/-- Join a list of words with single spaces. -/
def joinWords : List (List Char) → List Char
  | [] => []
  | [w] => w
  | w :: w' :: ws => w ++ ' ' :: joinWords (w' :: ws)

/-- Modelled from the spec: `clean_text` (imported from the repository's
`utils` module, which is not part of the sources) whitespace-normalizes a
string — leading/trailing whitespace is dropped and every internal
whitespace run is collapsed to a single space.  The spec describes its uses
as "whitespace-normalized" / "cleaned" text. -/
def cleanL (l : List Char) : List Char := joinWords (splitWords l)

/-- `pySplitAux sep l cur` is the worker for Python `str.split(sep)`:
splits at every occurrence of `sep`, keeping empty fields. -/
def pySplitAux (sep : Char) : List Char → List Char → List (List Char)
  | [], cur => [cur.reverse]
  | c :: cs, cur =>
    if c = sep then cur.reverse :: pySplitAux sep cs []
    else pySplitAux sep cs (c :: cur)

/-- Python `str.split(sep)` for a one-character separator. -/
def pySplit (sep : Char) (l : List Char) : List (List Char) := pySplitAux sep l []

/-- Python `s.split(sep)[-1]`: the text after the last occurrence of `sep`
(the whole string when `sep` does not occur). -/
def afterLastL (sep : Char) (l : List Char) : List Char := (pySplit sep l).getLastD []

/-- Python `s.split(sep)[-2]` (defaulting to `[]` when the split has fewer
than two fields; the crawler's URLs are assumed well formed). -/
def secondLastL (sep : Char) (l : List Char) : List Char :=
  ((pySplit sep l).reverse.drop 1).headD []

/-- Python `s.split(sep)[0]`: the text before the first occurrence of `sep`. -/
def beforeFirstL (sep : Char) (l : List Char) : List Char := (pySplit sep l).headD []

/-- Does `pat` start the list `l`? -/
def startsWithL : List Char → List Char → Bool
  | [], _ => true
  | _ :: _, [] => false
  | p :: ps, c :: cs => p = c && startsWithL ps cs

/-- Fuel-indexed worker for Python `str.replace(pat, '')`: removes
non-overlapping occurrences of `pat` left to right.  One fuel unit is spent
per consumed character block, so fuel `l.length` suffices. -/
def removeAllGo (pat : List Char) : Nat → List Char → List Char
  | 0, l => l
  | _ + 1, [] => []
  | n + 1, c :: cs =>
    if startsWithL pat (c :: cs) then removeAllGo pat n (List.drop pat.length (c :: cs))
    else c :: removeAllGo pat n cs

/-- Python `str.replace(pat, '')` (for the empty pattern Python returns the
string unchanged). -/
def removeAllL (pat l : List Char) : List Char :=
  if pat = [] then l else removeAllGo pat l.length l

/-- Python `str.strip()`. -/
def stripL (l : List Char) : List Char :=
  ((l.dropWhile isWs).reverse.dropWhile isWs).reverse

-- String-level wrappers, mirroring the Python `str` methods the crawler uses.

/-- Modelled from the spec: `clean_text` from the missing `utils` module,
lifted to `String` (see `cleanL`). -/
def clean_text (s : String) : String := ⟨cleanL s.data⟩

/-- Python `s.replace(pat, '')`. -/
def removeOccs (pat s : String) : String := ⟨removeAllL pat.data s.data⟩

/-- Python `s.replace(c, '')` for a single-character pattern `c`. -/
def removeChar (c : Char) (s : String) : String := ⟨s.data.filter (fun x => x ≠ c)⟩

/-- Python `s.split(sep)[-1]`. -/
def pySplitLast (sep : Char) (s : String) : String := ⟨afterLastL sep s.data⟩

/-- Python `s.split(sep)[-2]`. -/
def pySplitPenult (sep : Char) (s : String) : String := ⟨secondLastL sep s.data⟩

/-- Python `s.split(sep)[0]`. -/
def pySplitFirst (sep : Char) (s : String) : String := ⟨beforeFirstL sep s.data⟩

/-- Python `s.strip()`. -/
def pyStrip (s : String) : String := ⟨stripL s.data⟩

/-- Python `s.lower()`. -/
def pyLower (s : String) : String := ⟨s.data.map Char.toLower⟩

/-- JSON-like values stored in the crawler's nested result dicts. -/
inductive Val where
  | str : String → Val
  | obj : List (String × Val) → Val

/-- One per-dataset detail dict (`dataset_details[organization][dataset_name]`). -/
abbrev Record := List (String × Val)

/-- Python dict assignment `m[k] = v` on an insertion-ordered dict:
replace in place if the key exists, else append. -/
def assocSet {α : Type} (k : String) (v : α) : List (String × α) → List (String × α)
  | [] => [(k, v)]
  | (k', v') :: rest => if k' = k then (k, v) :: rest else (k', v') :: assocSet k v rest

/-- Python dict lookup `m.get(k)`. -/
def assocGet {α : Type} (k : String) : List (String × α) → Option α
  | [] => none
  | (k', v') :: rest => if k' = k then some v' else assocGet k rest

-- ======================= tag extraction (lines 268-275) =======================

/-- Tag-category label: the tag div's span text with `:`  then `'` then `"`
removed (line 269). -/
def tagKeyOf (span : String) : String :=
  removeChar quotc (removeChar apos (removeChar ':' span))

/-- Tag value: the div's full text with the label removed, text after the
last colon kept, whitespace-normalized, quotes removed (line 270). -/
def tagValueOf (key full : String) : String :=
  removeChar quotc (removeChar apos (clean_text (pySplitLast ':' (removeOccs key full))))

/-- Arxiv identifier derived from a tag value (lines 273-275):
text after the last colon, cleaned, then the part before the first space. -/
def arxivFromValue (v : String) : String :=
  pySplitFirst ' ' (clean_text (pySplitLast ':' v))

/-- The loop over tag divs (lines 268-275): builds the tag map and the arxiv
id.  Each element of `ts` is a pair (span text, div full text).  A later
match of the case-insensitive label "arxiv" overwrites an earlier one. -/
def tagsFold (ts : List (String × String)) : List (String × String) × String :=
  ts.foldl
    (fun acc p =>
      let k := tagKeyOf p.1
      let v := tagValueOf k p.2
      (assocSet k v acc.1, if pyLower k = "arxiv" then arxivFromValue v else acc.2))
    ([], "")

-- ==================== counters (lines 306-311) ====================

/-- Counter normalisation (lines 307-311): remove the descriptive word,
whitespace-normalize, default to "0" when the rest is empty. -/
def counterValue (word s : String) : String :=
  if clean_text (removeOccs word s) = "" then "0" else clean_text (removeOccs word s)

-- ================= data-info panel (lines 277-294) =================

/-- The loop body over the data-info panel's `a` tags (lines 283-288): only
tags with exactly two inner divs contribute, first div text stripped as key,
second as value. -/
def dataInfoPairs (ats : List (List String)) : List (String × String) :=
  ats.foldl
    (fun m divs =>
      match divs with
      | [k, v] => assocSet (pyStrip k) (pyStrip v) m
      | _ => m)
    []

/-- Wrap a string-to-string map as a `Val`. -/
def toObj (m : List (String × String)) : Val :=
  Val.obj (m.map fun p => (p.1, Val.str p.2))

-- ============ `_extract_related_data` (lines 248-315) ============

/-- Per-page environment for `_extract_related_data`: the texts the driver
returns, or `Except.error` where the corresponding driver query raises.
`download`/`community`/`like` are single-element queries (lines 258-262),
`tags` is the list of (span text, full text) pairs of the tag divs (an error
models a div without a span), `dataInfo` is the per-`a`-tag lists of inner
div texts of the data-info panel (an error models the panel query raising,
the soft-fail branch of lines 277-294), `panel` is the optional panel text
(lines 296-302), and `relatedMC` is the result computed by
`_crawl_related_models_or_collections` (always assigned, line 356). -/
structure ExtractEnv where
  download : Except Unit String
  community : Except Unit String
  like : Except Unit String
  tags : Except Unit (List (String × String))
  dataInfo : Except Unit (List (List String))
  panel : Option String
  relatedMC : List (String × Val)

/-- `_extract_related_data` (lines 248-315): mutates the record `r0` (the
entry `dataset_details[organization][dataset_name]`), returning the mutated
record and the arxiv id, or re-raising when one of the hard queries
(download count, community, like, tag spans) raises.  The data-info block
soft-fails: on error nothing is assigned (lines 293-294). -/
def extract_related_data (env : ExtractEnv) (r0 : Record) : Except Unit (Record × String) :=
  match env.download with
  | .error e => .error e
  | .ok download =>
    match env.community with
    | .error e => .error e
    | .ok community =>
      match env.like with
      | .error e => .error e
      | .ok like =>
        match env.tags with
        | .error e => .error e
        | .ok ts =>
          let tm := tagsFold ts
          let r1 := match env.dataInfo with
            | .error _ => r0
            | .ok ats => assocSet "dataset_info" (toObj (dataInfoPairs ats)) r0
          let r2 := match env.panel with
            | none => r1
            | some t => assocSet "dataset_panel_info"
                (Val.str (removeChar apos (removeChar quotc t))) r1
          let r3 := assocSet "related_models_collections" (Val.obj env.relatedMC) r2
          let r4 := assocSet "dataset_tags_info" (toObj tm.1) r3
          let r5 := assocSet "download_count_last_month" (Val.str download) r4
          let r6 := assocSet "community" (Val.str (counterValue "Community" community)) r5
          let r7 := assocSet "like" (Val.str (counterValue "Like" like)) r6
          .ok (r7, tm.2)

-- ==== `_extract_models_or_collections_items` (lines 358-373) ====

/-- A first-level nested div of a related-artifact anchor, with its
optional inner (second-level) div's text. -/
structure DivEl where
  inner : Option String

/-- A related-artifact anchor element as the item extractor sees it. -/
structure ALink where
  header : Option String
  href : String
  firstDiv : Option DivEl
  text : String

/-- Display key of a related-artifact item (line 367): the cleaned header
text, or the literal "expand" when the anchor has no header element. -/
def itemHeaderKey (a : ALink) : String :=
  match a.header with
  | some h => clean_text h
  | none => "expand"

/-- Truthiness of `a_tag.find('div') and a_tag.find('div').find('div')`
(line 369). -/
def hasNestedDivDiv (a : ALink) : Bool :=
  match a.firstDiv with
  | none => false
  | some d => d.inner.isSome

/-- Per-anchor item extraction (lines 366-373): produces the display key and
the item dict. -/
def extractItem (a : ALink) : String × Record :=
  let hk := itemHeaderKey a
  if hk ≠ "expand" ∧ hasNestedDivDiv a then
    (hk, [("href", Val.str a.href),
          ("text", Val.str (clean_text ((a.firstDiv.bind DivEl.inner).getD "")))])
  else
    (hk, [("other", Val.str (removeChar apos (removeChar quotc (clean_text a.text))))])

/-- `_extract_models_or_collections_items` (lines 358-373): folds the
anchors of one bucket into `result[sub_title]`. -/
def extract_models_or_collections_items (elements : List ALink)
    (bucket : List (String × Record)) : List (String × Record) :=
  elements.foldl (fun b a => assocSet (extractItem a).1 (extractItem a).2 b) bucket

-- ============== `_get_all_link_data` (lines 182-246) ==============

/-- `organization = link.split("/")[-2]` (line 216). -/
def orgSeg (link : String) : String := pySplitPenult '/' link

/-- `dataset_name = link.split("/")[-1]` (line 217). -/
def lastSeg (link : String) : String := pySplitLast '/' link

/-- Dataset page screenshot path (lines 223, 242): built from the screenshot
directory and the URL's last path segment only. -/
def dataset_screenshot_save_path (ssp link : String) : String :=
  ssp ++ "/" ++ lastSeg link ++ ".png"

/-- Paper screenshot path (lines 234-240): built from the screenshot
directory and the URL's last path segment only. -/
def paper_screenshot_save_path (ssp link : String) : String :=
  ssp ++ "/" ++ lastSeg link ++ "_pdf.png"

/-- Per-link environment for `_get_all_link_data`'s loop body:
`preErr` models a raise before the entry is created (navigation, settle,
gate-form handling, lines 204-213), `shotErr` a raise of the dataset
screenshot (line 223, after the entry exists), `page` feeds
`_extract_related_data`, and `arxivErr` a raise while navigating to or
screenshotting the arxiv page (lines 229-235, reached only when an arxiv id
was found). -/
structure LinkEnv where
  preErr : Bool
  shotErr : Bool
  page : ExtractEnv
  arxivErr : Bool

/-- The two dicts `_get_all_link_data` accumulates: `dataset_details` and
`exception_links`. -/
structure CrawlState where
  details : List (String × List (String × Record))
  exceptions : List String

/-- `dataset_details[organization][dataset_name] = r`, creating the
organization dict when absent. -/
def setEntry (org name : String) (r : Record)
    (d : List (String × List (String × Record))) : List (String × List (String × Record)) :=
  assocSet org (assocSet name r ((assocGet org d).getD [])) d

/-- Lookup of `dataset_details[organization][dataset_name]`. -/
def lookupEntry (d : List (String × List (String × Record)))
    (org name : String) : Option Record :=
  (assocGet org d).bind (assocGet name)

/-- The body of the per-link loop of `_get_all_link_data` (lines 202-245):
any raise is caught and appends the link to `exception_links`; otherwise the
entry is ensured (lines 218-221), `_extract_related_data` fills it
(line 225), the optional arxiv navigation runs (lines 228-235), and finally
the entry is re-assigned to a fresh dict holding only the link and the two
screenshot paths (lines 237-242). -/
def processLink (ssp : String) (env : String → LinkEnv) (st : CrawlState)
    (link : String) : CrawlState :=
  let e := env link
  if e.preErr then { st with exceptions := st.exceptions ++ [link] }
  else
    let organization := orgSeg link
    let dataset_name := lastSeg link
    let r0 := (lookupEntry st.details organization dataset_name).getD []
    let d1 := setEntry organization dataset_name r0 st.details
    if e.shotErr then { details := d1, exceptions := st.exceptions ++ [link] }
    else
      match extract_related_data e.page r0 with
      | .error _ => { details := d1, exceptions := st.exceptions ++ [link] }
      | .ok (r1, arxiv_id) =>
        let d2 := setEntry organization dataset_name r1 d1
        if arxiv_id ≠ "" ∧ e.arxivErr = true then
          { details := d2, exceptions := st.exceptions ++ [link] }
        else
          let finalRec : Record :=
            [("link", Val.str link),
             ("paper_screenshot_save_path",
               Val.str (if arxiv_id ≠ "" then paper_screenshot_save_path ssp link else "")),
             ("dataset_screenshot_save_path",
               Val.str (dataset_screenshot_save_path ssp link))]
          { details := setEntry organization dataset_name finalRec d2,
            exceptions := st.exceptions }

/-- `_get_all_link_data` (lines 182-246), after the cookie login: process
every link in order, starting from empty dicts. -/
def get_all_link_data (ssp : String) (env : String → LinkEnv)
    (links : List String) : CrawlState :=
  links.foldl (processLink ssp env) ⟨[], []⟩

-- ========== link discovery, `crawl_dataset_links` (lines 80-145) ==========

/-- The sort-order mapping of `_get_related_links` (lines 132-140). -/
def sort_map : List (String × String) :=
  [("downloads", "downloads"), ("updated", "modified"), ("created", "created"),
   ("alphabetical", "alphabetical"), ("likes", "likes"),
   ("rowsMost", "most_rows"), ("rowsLeast", "least_rows")]

/-- `_get_related_links` (lines 124-145): raises `ValueError` on a `None`
link or an unrecognized `sort_method`, otherwise builds the listing URL. -/
def get_related_links (sort_method : String) (current_link : Option String) :
    Except String String :=
  match current_link with
  | none => .error "current_link cannot be None."
  | some link =>
    match assocGet sort_method sort_map with
    | none => .error "Invalid sort_method."
    | some m => .ok (link ++ "?sort_datasets=" ++ m ++ "#datasets")

/-- The per-article loop of `crawl_dataset_links` (lines 110-116): each
article yields a dataset link or raises; a raise aborts the organization
(caught by the handler at line 117), keeping the links already appended. -/
def crawlOrgArticles (index : String) :
    List (Except Unit String) → List (String × List String) → List (String × List String)
  | [], st => st
  | .error _ :: _, st => st
  | .ok link :: rest, st =>
    crawlOrgArticles index rest (assocSet index ((assocGet index st).getD [] ++ [link]) st)

/-- One iteration of the per-organization loop of `crawl_dataset_links`
(lines 91-118): empty or missing targets are skipped; a raise of
`_get_related_links` (line 97) is caught by the per-organization handler
(line 117); the article environment supplies the rest of the iteration. -/
def crawlStep (sort_method : String) (env : String → List (Except Unit String))
    (st : List (String × List String)) (p : String × Option String) :
    List (String × List String) :=
  match p.2 with
  | none => st
  | some t =>
    if t = "" then st
    else
      match get_related_links sort_method (some t) with
      | .error _ => st
      | .ok _ => crawlOrgArticles p.1 (env p.1) st

/-- `crawl_dataset_links` (lines 80-122) minus file I/O: folds over the
organization targets and returns the map that is then persisted once, after
all organizations were attempted.  The `Except` codomain exposes the
function's uncaught-exception surface: the loop body catches all exceptions,
so the result is always `Except.ok`. -/
def crawl_dataset_links (sort_method : String)
    (env : String → List (Except Unit String))
    (targets : List (String × Option String)) :
    Except String (List (String × List String)) :=
  .ok (targets.foldl (crawlStep sort_method env) [])

/-- The dataset links an organization's article list contributes before the
first raise (the links collected when the per-organization handler fires,
all of them when no article raises). -/
def collectedLinks : List (Except Unit String) → List String
  | [] => []
  | .ok l :: rest => l :: collectedLinks rest
  | .error _ :: _ => []

-- ========================= helper lemmas =========================

theorem assocGet_assocSet {α : Type} (k k' : String) (v : α) (m : List (String × α)) :
    assocGet k' (assocSet k v m) = if k = k' then some v else assocGet k' m := by
  induction m with
  | nil => by_cases h : k = k' <;> simp [assocSet, assocGet, h]
  | cons p rest ih =>
    obtain ⟨a, b⟩ := p
    by_cases hak : a = k <;> by_cases hk : k = k' <;> by_cases ha' : a = k' <;>
      simp_all [assocSet, assocGet]

theorem assocGet_assocSet_self {α : Type} (k : String) (v : α) (m : List (String × α)) :
    assocGet k (assocSet k v m) = some v := by
  simp [assocGet_assocSet]

theorem assocGet_assocSet_ne {α : Type} {k k' : String} (h : k ≠ k') (v : α)
    (m : List (String × α)) :
    assocGet k' (assocSet k v m) = assocGet k' m := by
  simp [assocGet_assocSet, h]

theorem isWs_space : isWs ' ' = true := rfl

theorem ne_space_of_not_ws {c : Char} (h : isWs c = false) : c ≠ ' ' := by
  intro hc
  subst hc
  exact absurd h (by simp [isWs_space])

theorem wordsAux_nil_of_ne {cur : List Char} (h : cur ≠ []) :
    wordsAux [] cur = [cur.reverse] := by
  cases cur with
  | nil => exact absurd rfl h
  | cons c cs => rfl

theorem wordsAux_cons_ws {c : Char} (hc : isWs c = true) (cs : List Char) {cur : List Char}
    (h : cur ≠ []) : wordsAux (c :: cs) cur = cur.reverse :: wordsAux cs [] := by
  simp [wordsAux, hc, h]

theorem wordsAux_cons_ws_nil {c : Char} (hc : isWs c = true) (cs : List Char) :
    wordsAux (c :: cs) [] = wordsAux cs [] := by
  simp [wordsAux, hc]

theorem wordsAux_cons_nws {c : Char} (hc : isWs c = false) (cs cur : List Char) :
    wordsAux (c :: cs) cur = wordsAux cs (c :: cur) := by
  simp [wordsAux, hc]

theorem wordsAux_append_word (w : List Char) (hw : ∀ c ∈ w, isWs c = false) :
    ∀ (cs cur : List Char), wordsAux (w ++ cs) cur = wordsAux cs (w.reverse ++ cur) := by
  induction w with
  | nil => intro cs cur; simp
  | cons c w ih =>
    intro cs cur
    have hc : isWs c = false := hw c (by simp)
    have hrest : ∀ x ∈ w, isWs x = false := fun x hx => hw x (by simp [hx])
    rw [List.cons_append, wordsAux_cons_nws hc, ih hrest cs (c :: cur)]
    simp

theorem wordsAux_space_cons (cs : List Char) {cur : List Char} (h : cur ≠ []) :
    wordsAux (' ' :: cs) cur = cur.reverse :: wordsAux cs [] :=
  wordsAux_cons_ws isWs_space cs h

theorem wordsAux_valid :
    ∀ (l cur : List Char), (∀ c ∈ cur, isWs c = false) →
      ∀ w ∈ wordsAux l cur, w ≠ [] ∧ ∀ c ∈ w, isWs c = false := by
  intro l
  induction l with
  | nil =>
    intro cur hcur w hw
    cases cur with
    | nil => simp [wordsAux] at hw
    | cons c cs =>
      rw [wordsAux_nil_of_ne (by simp)] at hw
      rw [List.mem_singleton] at hw
      subst hw
      exact ⟨by simp, fun x hx => hcur x (List.mem_reverse.mp hx)⟩
  | cons c cs ih =>
    intro cur hcur w hw
    cases hc : isWs c with
    | true =>
      cases hq : cur with
      | nil =>
        subst hq
        rw [wordsAux_cons_ws_nil hc] at hw
        exact ih [] (by simp) w hw
      | cons d ds =>
        subst hq
        rw [wordsAux_cons_ws hc _ (by simp)] at hw
        rcases List.mem_cons.mp hw with hw | hw
        · subst hw
          exact ⟨by simp, fun x hx => hcur x (List.mem_reverse.mp hx)⟩
        · exact ih [] (by simp) w hw
    | false =>
      rw [wordsAux_cons_nws hc] at hw
      refine ih (c :: cur) (fun x hx => ?_) w hw
      rcases List.mem_cons.mp hx with hx | hx
      · subst hx; exact hc
      · exact hcur x hx

theorem splitWords_valid (l : List Char) :
    ∀ w ∈ splitWords l, w ≠ [] ∧ ∀ c ∈ w, isWs c = false :=
  wordsAux_valid l [] (by simp)

theorem splitWords_joinWords :
    ∀ (ws : List (List Char)),
      (∀ w ∈ ws, w ≠ [] ∧ ∀ c ∈ w, isWs c = false) →
      splitWords (joinWords ws) = ws := by
  intro ws
  induction ws with
  | nil => intro _; rfl
  | cons w ws ih =>
    intro h
    have hw : w ≠ [] := (h w (by simp)).1
    have hwc : ∀ c ∈ w, isWs c = false := (h w (by simp)).2
    cases ws with
    | nil =>
      show splitWords w = [w]
      unfold splitWords
      have := wordsAux_append_word w hwc [] []
      simp only [List.append_nil] at this
      rw [this, wordsAux_nil_of_ne (by simpa using hw)]
      simp
    | cons w' ws' =>
      show splitWords (w ++ ' ' :: joinWords (w' :: ws')) = w :: w' :: ws'
      unfold splitWords
      rw [wordsAux_append_word w hwc]
      rw [wordsAux_space_cons _ (by simpa using hw)]
      simp only [List.append_nil, List.reverse_reverse]
      have := ih (fun x hx => h x (by simp [hx]))
      unfold splitWords at this
      rw [this]

theorem cleanL_idem (l : List Char) : cleanL (cleanL l) = cleanL l := by
  unfold cleanL
  rw [splitWords_joinWords (splitWords l) (splitWords_valid l)]

theorem clean_text_idem (s : String) : clean_text (clean_text s) = clean_text s := by
  unfold clean_text
  exact congrArg String.mk (cleanL_idem s.data)

theorem pySplitAux_cons_ne {sep c : Char} (hc : c ≠ sep) (cs cur : List Char) :
    pySplitAux sep (c :: cs) cur = pySplitAux sep cs (c :: cur) := by
  simp [pySplitAux, hc]

theorem pySplitAux_append_word (sep : Char) (w : List Char) (hw : ∀ c ∈ w, c ≠ sep) :
    ∀ (cs cur : List Char), pySplitAux sep (w ++ cs) cur = pySplitAux sep cs (w.reverse ++ cur) := by
  induction w with
  | nil => intro cs cur; simp
  | cons c w ih =>
    intro cs cur
    have hc : c ≠ sep := hw c (by simp)
    have hrest : ∀ x ∈ w, x ≠ sep := fun x hx => hw x (by simp [hx])
    rw [List.cons_append, pySplitAux_cons_ne hc, ih hrest cs (c :: cur)]
    simp

theorem beforeFirstL_joinWords :
    ∀ (ws : List (List Char)),
      (∀ w ∈ ws, w ≠ [] ∧ ∀ c ∈ w, isWs c = false) →
      beforeFirstL ' ' (joinWords ws) = ws.headD [] := by
  intro ws
  induction ws with
  | nil => intro _; rfl
  | cons w ws _ih =>
    intro h
    have hwc : ∀ c ∈ w, c ≠ ' ' := fun c hc => ne_space_of_not_ws ((h w (by simp)).2 c hc)
    cases ws with
    | nil =>
      show beforeFirstL ' ' w = w
      unfold beforeFirstL pySplit
      have := pySplitAux_append_word ' ' w hwc [] []
      simp only [List.append_nil] at this
      rw [this]
      simp [pySplitAux]
    | cons w' ws' =>
      show beforeFirstL ' ' (w ++ ' ' :: joinWords (w' :: ws')) = w
      unfold beforeFirstL pySplit
      rw [pySplitAux_append_word ' ' w hwc]
      simp [pySplitAux]

/-- Spec-side definition for C6: the first whitespace-separated token of a
string (empty when the string has no words). -/
def specFirstToken (s : String) : String := ⟨(splitWords s.data).headD []⟩

theorem pySplitFirst_clean_eq_specFirstToken (s : String) :
    pySplitFirst ' ' (clean_text s) = specFirstToken (clean_text s) := by
  unfold pySplitFirst specFirstToken clean_text
  refine congrArg String.mk ?_
  show beforeFirstL ' ' (cleanL s.data) = (splitWords (cleanL s.data)).headD []
  unfold cleanL
  rw [beforeFirstL_joinWords (splitWords s.data) (splitWords_valid s.data),
    splitWords_joinWords (splitWords s.data) (splitWords_valid s.data)]

/-- The record `_extract_related_data` leaves in
`dataset_details[organization][dataset_name]` on success, as a function of
the page texts (see `extract_ok_form`). -/
def assembledRecord (env : ExtractEnv) (r0 : Record) (d c l : String)
    (ts : List (String × String)) : Record :=
  let r1 := match env.dataInfo with
    | .error _ => r0
    | .ok ats => assocSet "dataset_info" (toObj (dataInfoPairs ats)) r0
  let r2 := match env.panel with
    | none => r1
    | some t => assocSet "dataset_panel_info"
        (Val.str (removeChar apos (removeChar quotc t))) r1
  assocSet "like" (Val.str (counterValue "Like" l))
    (assocSet "community" (Val.str (counterValue "Community" c))
      (assocSet "download_count_last_month" (Val.str d)
        (assocSet "dataset_tags_info" (toObj (tagsFold ts).1)
          (assocSet "related_models_collections" (Val.obj env.relatedMC) r2))))

theorem extract_ok_form (env : ExtractEnv) (r0 : Record) (d c l : String)
    (ts : List (String × String))
    (hd : env.download = Except.ok d) (hc : env.community = Except.ok c)
    (hl : env.like = Except.ok l) (ht : env.tags = Except.ok ts) :
    extract_related_data env r0 =
      Except.ok (assembledRecord env r0 d c l ts, (tagsFold ts).2) := by
  simp only [extract_related_data, hd, hc, hl, ht, assembledRecord]

theorem extract_ok_inv (env : ExtractEnv) (r0 r : Record) (a : String)
    (h : extract_related_data env r0 = Except.ok (r, a)) :
    ∃ d c l ts, env.download = Except.ok d ∧ env.community = Except.ok c ∧
      env.like = Except.ok l ∧ env.tags = Except.ok ts ∧
      r = assembledRecord env r0 d c l ts ∧ a = (tagsFold ts).2 := by
  cases hd : env.download with
  | error e => simp [extract_related_data, hd] at h
  | ok d =>
    cases hc : env.community with
    | error e => simp [extract_related_data, hd, hc] at h
    | ok c =>
      cases hl : env.like with
      | error e => simp [extract_related_data, hd, hc, hl] at h
      | ok l =>
        cases ht : env.tags with
        | error e => simp [extract_related_data, hd, hc, hl, ht] at h
        | ok ts =>
          rw [extract_ok_form env r0 d c l ts hd hc hl ht] at h
          simp only [Except.ok.injEq, Prod.mk.injEq] at h
          exact ⟨d, c, l, ts, rfl, rfl, rfl, rfl, h.1.symm, h.2.symm⟩

theorem counterValue_props (word s : String) :
    (clean_text (removeOccs word s) = "" → counterValue word s = "0") ∧
    (clean_text (removeOccs word s) ≠ "" →
      counterValue word s = clean_text (removeOccs word s)) ∧
    clean_text (counterValue word s) = counterValue word s := by
  by_cases h : clean_text (removeOccs word s) = ""
  · refine ⟨fun _ => by simp [counterValue, h], fun hne => absurd h hne, ?_⟩
    simp only [counterValue, h, if_pos rfl]
    rfl
  · exact ⟨fun he => absurd he h, fun _ => by simp [counterValue, h],
      by simp [counterValue, h, clean_text_idem]⟩

theorem tagsFold_snd_last (ts : List (String × String)) (span full : String)
    (h : pyLower (tagKeyOf span) = "arxiv") :
    (tagsFold (ts ++ [(span, full)])).2 =
      arxivFromValue (tagValueOf (tagKeyOf span) full) := by
  unfold tagsFold
  rw [List.foldl_append]
  simp [h]

-- ============================ claims ============================

/-- C10: both screenshot paths stored in a record are a deterministic
function of the dataset URL's last path segment only — for any two links
whose URLs share the same final path segment but differ in organization,
the computed `dataset_screenshot_save_path` and `paper_screenshot_save_path`
are identical. -/
theorem C10_screenshot_paths_last_segment_only (ssp l1 l2 : String)
    (hseg : lastSeg l1 = lastSeg l2) (_horg : orgSeg l1 ≠ orgSeg l2) :
    dataset_screenshot_save_path ssp l1 = dataset_screenshot_save_path ssp l2 ∧
    paper_screenshot_save_path ssp l1 = paper_screenshot_save_path ssp l2 := by
  unfold dataset_screenshot_save_path paper_screenshot_save_path
  rw [hseg]
  exact ⟨rfl, rfl⟩

/-- Witness for C10 at two concrete links sharing the final path segment
but owned by different organizations. -/
theorem C10_screenshot_paths_last_segment_only_witness :
    dataset_screenshot_save_path "shots" "https://huggingface.co/datasets/orgA/squad" =
      dataset_screenshot_save_path "shots" "https://huggingface.co/datasets/orgB/squad" ∧
    paper_screenshot_save_path "shots" "https://huggingface.co/datasets/orgA/squad" =
      paper_screenshot_save_path "shots" "https://huggingface.co/datasets/orgB/squad" :=
  C10_screenshot_paths_last_segment_only "shots" _ _ rfl (by decide)

/-- Environment for C4: every organization's article list yields one
dataset link, so links would be collected if the organization were
processed. -/
def envC4 : String → List (Except Unit String) :=
  fun _ => [Except.ok "https://huggingface.co/datasets/org1/d1"]

/-- C4 counterexample: with the unrecognized sort method "foo",
`_get_related_links` does raise `ValueError`, but `crawl_dataset_links`
completes normally (no abort) and persists an empty map — the error is
swallowed by the per-organization handler, contradicting the claim that the
whole discovery run aborts and nothing is persisted. -/
theorem C4_config_error_counterexample :
    get_related_links "foo" (some "https://huggingface.co/org1") =
      Except.error "Invalid sort_method." ∧
    crawl_dataset_links "foo" envC4 [("1", some "https://huggingface.co/org1")] =
      Except.ok [] :=
  ⟨rfl, rfl⟩

/-- C4 (amended): if the configured sort_method is not one of the
recognized sort orders, `_get_related_links` raises `ValueError` for every
organization, but the exception is caught by the per-organization handler:
no organization's links are enumerated, the run does not abort, and an
empty `OrganizationLinkMap` is returned (and persisted). -/
theorem C4_config_error_amended (sm : String)
    (env : String → List (Except Unit String))
    (targets : List (String × Option String))
    (h : assocGet sm sort_map = none) :
    (∀ t : String, get_related_links sm (some t) = Except.error "Invalid sort_method.") ∧
    crawl_dataset_links sm env targets = Except.ok [] := by
  have hstep : ∀ st p, crawlStep sm env st p = st := by
    intro st p
    obtain ⟨i, tgt⟩ := p
    cases tgt with
    | none => rfl
    | some t =>
      by_cases ht : t = ""
      · simp [crawlStep, ht]
      · simp [crawlStep, ht, get_related_links, h]
  have hfold : ∀ (ts : List (String × Option String)) (st : List (String × List String)),
      ts.foldl (crawlStep sm env) st = st := by
    intro ts
    induction ts with
    | nil => intro st; rfl
    | cons p ts ih => intro st; rw [List.foldl_cons, hstep st p]; exact ih st
  refine ⟨fun t => ?_, ?_⟩
  · simp [get_related_links, h]
  · simp [crawl_dataset_links, hfold]

/-- Witness for C4's amended theorem at a concrete invalid sort method. -/
theorem C4_config_error_amended_witness :
    crawl_dataset_links "foo" envC4 [("1", some "https://huggingface.co/org1")] =
      Except.ok [] :=
  (C4_config_error_amended "foo" envC4 [("1", some "https://huggingface.co/org1")] rfl).2

/-- Anchor with a two-level-nested block but no header element (used by C7). -/
def aNestedNoHeader : ALink :=
  { header := none, href := "/models/x", firstDiv := some { inner := some "Model X" },
    text := "Model X 99" }

/-- Anchor with a header and a two-level-nested block (used by C7). -/
def aHeaderNested : ALink :=
  { header := some "M1", href := "/m1", firstDiv := some { inner := some "inner" },
    text := "t" }

/-- Anchor with neither header nor nested block (used by C7). -/
def aPlain : ALink :=
  { header := none, href := "/m2", firstDiv := none, text := "plain" }

/-- C7 counterexample: an anchor that contains a two-level-nested block but
has no header element yields an `other`-shaped item (and key "expand"),
not `{href, text}` — refuting "a link with a two-level-nested block always
yields an item of shape {href, text}". -/
theorem C7_item_shape_counterexample :
    hasNestedDivDiv aNestedNoHeader = true ∧
    extractItem aNestedNoHeader = ("expand", [("other", Val.str "Model X 99")]) :=
  ⟨rfl, rfl⟩

/-- C7 (amended): an anchor with a two-level-nested block yields `{href,
text}` only when its display key is not "expand" (i.e. it has a header whose
cleaned text is not the literal "expand"); an anchor without a two-level
nested block, or whose display key is "expand", yields `{other: <cleaned,
quote-stripped full text>}`; an anchor with no header element uses the
display key "expand". -/
theorem C7_item_shape_amended (a : ALink) :
    (a.header = none → (extractItem a).1 = "expand") ∧
    (hasNestedDivDiv a = true → itemHeaderKey a ≠ "expand" →
      (extractItem a).2 =
        [("href", Val.str a.href),
         ("text", Val.str (clean_text ((a.firstDiv.bind DivEl.inner).getD "")))]) ∧
    ((hasNestedDivDiv a = false ∨ itemHeaderKey a = "expand") →
      (extractItem a).2 =
        [("other", Val.str (removeChar apos (removeChar quotc (clean_text a.text))))]) := by
  refine ⟨?_, ?_, ?_⟩
  · intro h
    have hk : itemHeaderKey a = "expand" := by simp [itemHeaderKey, h]
    simp [extractItem, hk]
  · intro hn hk
    simp [extractItem, hk, hn]
  · intro h
    rcases h with h | h
    · by_cases hk : itemHeaderKey a = "expand"
      · simp [extractItem, hk]
      · simp [extractItem, hk, h]
    · simp [extractItem, h]

/-- Witness for C7's amended theorem: the three branches at concrete
anchors. -/
theorem C7_item_shape_amended_witness :
    (extractItem aPlain).1 = "expand" ∧
    (extractItem aHeaderNested).2 = [("href", Val.str "/m1"), ("text", Val.str "inner")] ∧
    (extractItem aPlain).2 = [("other", Val.str "plain")] :=
  ⟨(C7_item_shape_amended aPlain).1 rfl,
   (C7_item_shape_amended aHeaderNested).2.1 rfl (by decide),
   (C7_item_shape_amended aPlain).2.2 (Or.inl rfl)⟩

/-- C5: for every extracted page, the community and like counters are
stored (by `_extract_related_data`) with their descriptive suffix word
("Community" / "Like") removed and whitespace-normalized (a fixed point of
`clean_text`), and whenever the remaining text is empty the stored value is
exactly the string "0". -/
theorem C5_counters_normalized :
    (∀ w s : String,
      (clean_text (removeOccs w s) = "" → counterValue w s = "0") ∧
      (clean_text (removeOccs w s) ≠ "" →
        counterValue w s = clean_text (removeOccs w s)) ∧
      clean_text (counterValue w s) = counterValue w s) ∧
    ∀ (env : ExtractEnv) (r0 r : Record) (a cs ls : String),
      env.community = Except.ok cs → env.like = Except.ok ls →
      extract_related_data env r0 = Except.ok (r, a) →
      assocGet "community" r = some (Val.str (counterValue "Community" cs)) ∧
      assocGet "like" r = some (Val.str (counterValue "Like" ls)) := by
  refine ⟨counterValue_props, ?_⟩
  intro env r0 r a cs ls hc hl hE
  obtain ⟨d, c, l, ts, _hd, hc', hl', _ht, hr, _ha⟩ := extract_ok_inv env r0 r a hE
  have hcc : c = cs := Except.ok.inj (hc'.symm.trans hc)
  have hll : l = ls := Except.ok.inj (hl'.symm.trans hl)
  subst hcc hll hr
  unfold assembledRecord
  constructor
  · rw [assocGet_assocSet_ne (by decide), assocGet_assocSet_self]
  · rw [assocGet_assocSet_self]

/-- Page environment used by the C5 witness. -/
def pageC5 : ExtractEnv :=
  { download := .ok "10", community := .ok "Community 7", like := .ok "Like 3",
    tags := .ok [], dataInfo := .ok [], panel := none, relatedMC := [] }

/-- The record `_extract_related_data` produces from `pageC5`. -/
def rC5 : Record :=
  [("dataset_info", Val.obj []), ("related_models_collections", Val.obj []),
   ("dataset_tags_info", Val.obj []), ("download_count_last_month", Val.str "10"),
   ("community", Val.str "7"), ("like", Val.str "3")]

/-- Witness for C5 at concrete counter texts and a concrete page. -/
theorem C5_counters_normalized_witness :
    counterValue "Community" "Community" = "0" ∧
    counterValue "Like" "Like 3" = clean_text (removeOccs "Like" "Like 3") ∧
    assocGet "community" rC5 = some (Val.str (counterValue "Community" "Community 7")) ∧
    assocGet "like" rC5 = some (Val.str (counterValue "Like" "Like 3")) :=
  ⟨(C5_counters_normalized.1 "Community" "Community").1 rfl,
   (C5_counters_normalized.1 "Like" "Like 3").2.1 (by decide),
   (C5_counters_normalized.2 pageC5 [] rC5 "" "Community 7" "Like 3" rfl rfl rfl).1,
   (C5_counters_normalized.2 pageC5 [] rC5 "" "Community 7" "Like 3" rfl rfl rfl).2⟩

/-- C6: the extracted ArxivId is the first whitespace-separated token of
the matched tag's value (text after the last colon, cleaned); in particular
the tag value "2107.06499 2107.99999" yields ArxivId "2107.06499"; and on
any page whose (last) tag block has a label matching "arxiv"
case-insensitively, `_extract_related_data` returns exactly that id. -/
theorem C6_arxiv_id_first_token :
    (∀ v : String,
      arxivFromValue v = specFirstToken (clean_text (pySplitLast ':' v))) ∧
    arxivFromValue "2107.06499 2107.99999" = "2107.06499" ∧
    ∀ (env : ExtractEnv) (r0 r : Record) (a : String)
      (ts : List (String × String)) (span full : String),
      env.tags = Except.ok (ts ++ [(span, full)]) →
      pyLower (tagKeyOf span) = "arxiv" →
      extract_related_data env r0 = Except.ok (r, a) →
      a = arxivFromValue (tagValueOf (tagKeyOf span) full) := by
  refine ⟨fun v => pySplitFirst_clean_eq_specFirstToken (pySplitLast ':' v), rfl, ?_⟩
  intro env r0 r a ts span full ht harx hE
  obtain ⟨d, c, l, ts', _hd, _hc, _hl, ht', _hr, ha⟩ := extract_ok_inv env r0 r a hE
  have hts : ts' = ts ++ [(span, full)] := Except.ok.inj (ht'.symm.trans ht)
  subst hts
  rw [ha, tagsFold_snd_last ts span full harx]

/-- Page environment used by the C6 witness. -/
def pageC6 : ExtractEnv :=
  { download := .ok "1", community := .ok "2", like := .ok "3",
    tags := .ok [("Arxiv:", "Arxiv: 2107.06499 2107.99999")],
    dataInfo := .error (), panel := none, relatedMC := [] }

/-- The record `_extract_related_data` produces from `pageC6`. -/
def rC6 : Record :=
  [("related_models_collections", Val.obj []),
   ("dataset_tags_info", Val.obj [("Arxiv", Val.str "2107.06499 2107.99999")]),
   ("download_count_last_month", Val.str "1"), ("community", Val.str "2"),
   ("like", Val.str "3")]

/-- Witness for C6 on a concrete page carrying a two-id arxiv tag. -/
theorem C6_arxiv_id_first_token_witness :
    "2107.06499" =
      arxivFromValue (tagValueOf (tagKeyOf "Arxiv:") "Arxiv: 2107.06499 2107.99999") :=
  C6_arxiv_id_first_token.2.2 pageC6 [] rC6 "2107.06499" []
    "Arxiv:" "Arxiv: 2107.06499 2107.99999" rfl rfl rfl

/-- Page environment used by C3: the data-info panel query raises, every
hard query succeeds. -/
def pageC3 : ExtractEnv :=
  { download := .ok "88", community := .ok "Community 2", like := .ok "5",
    tags := .ok [("Size:", "Size: 10K<n<100K")],
    dataInfo := .error (), panel := none, relatedMC := [("Models", Val.obj [])] }

/-- The record `_extract_related_data` produces from `pageC3`. -/
def rC3 : Record :=
  [("related_models_collections", Val.obj [("Models", Val.obj [])]),
   ("dataset_tags_info", Val.obj [("Size", Val.str "10K<n<100K")]),
   ("download_count_last_month", Val.str "88"), ("community", Val.str "2"),
   ("like", Val.str "5")]

/-- C3 counterexample: when the data-info panel sub-extraction raises, the
record extraction does complete, but the resulting record has NO
`dataset_info` key at all — `assocGet "dataset_info" = none`, not the empty
mapping `some (Val.obj [])` the claim requires. -/
theorem C3_data_info_counterexample :
    pageC3.dataInfo = Except.error () ∧
    extract_related_data pageC3 [] = Except.ok (rC3, "") ∧
    assocGet "dataset_info" rC3 = none :=
  ⟨rfl, rfl, rfl⟩

/-- C3 (amended): if the data-info panel sub-extraction raises, the failure
is isolated: the whole-record extraction still completes, the record's
`dataset_info` key is left exactly as it was before (absent for a fresh
record, rather than set to the empty mapping), and every other field is
populated normally. -/
theorem C3_data_info_soft_fail_amended
    (env : ExtractEnv) (r0 : Record) (d c l : String) (ts : List (String × String))
    (hd : env.download = Except.ok d) (hc : env.community = Except.ok c)
    (hl : env.like = Except.ok l) (ht : env.tags = Except.ok ts)
    (hdi : env.dataInfo = Except.error ()) :
    ∃ r, extract_related_data env r0 = Except.ok (r, (tagsFold ts).2) ∧
      assocGet "dataset_info" r = assocGet "dataset_info" r0 ∧
      assocGet "related_models_collections" r = some (Val.obj env.relatedMC) ∧
      assocGet "dataset_tags_info" r = some (toObj (tagsFold ts).1) ∧
      assocGet "download_count_last_month" r = some (Val.str d) ∧
      assocGet "community" r = some (Val.str (counterValue "Community" c)) ∧
      assocGet "like" r = some (Val.str (counterValue "Like" l)) := by
  refine ⟨assembledRecord env r0 d c l ts, extract_ok_form env r0 d c l ts hd hc hl ht,
    ?_, ?_, ?_, ?_, ?_, ?_⟩
  · simp only [assembledRecord, hdi]
    rw [assocGet_assocSet_ne (by decide), assocGet_assocSet_ne (by decide),
      assocGet_assocSet_ne (by decide), assocGet_assocSet_ne (by decide),
      assocGet_assocSet_ne (by decide)]
    cases hp : env.panel with
    | none => rfl
    | some t => rw [assocGet_assocSet_ne (by decide)]
  · simp only [assembledRecord]
    rw [assocGet_assocSet_ne (by decide), assocGet_assocSet_ne (by decide),
      assocGet_assocSet_ne (by decide), assocGet_assocSet_ne (by decide),
      assocGet_assocSet_self]
  · simp only [assembledRecord]
    rw [assocGet_assocSet_ne (by decide), assocGet_assocSet_ne (by decide),
      assocGet_assocSet_ne (by decide), assocGet_assocSet_self]
  · simp only [assembledRecord]
    rw [assocGet_assocSet_ne (by decide), assocGet_assocSet_ne (by decide),
      assocGet_assocSet_self]
  · simp only [assembledRecord]
    rw [assocGet_assocSet_ne (by decide), assocGet_assocSet_self]
  · simp only [assembledRecord]
    rw [assocGet_assocSet_self]

/-- Witness for C3's amended theorem on the concrete page `pageC3`. -/
theorem C3_data_info_soft_fail_amended_witness :
    ∃ r, extract_related_data pageC3 [] =
        Except.ok (r, (tagsFold [("Size:", "Size: 10K<n<100K")]).2) ∧
      assocGet "dataset_info" r = none ∧
      assocGet "related_models_collections" r = some (Val.obj [("Models", Val.obj [])]) ∧
      assocGet "dataset_tags_info" r =
        some (toObj (tagsFold [("Size:", "Size: 10K<n<100K")]).1) ∧
      assocGet "download_count_last_month" r = some (Val.str "88") ∧
      assocGet "community" r = some (Val.str (counterValue "Community" "Community 2")) ∧
      assocGet "like" r = some (Val.str (counterValue "Like" "5")) :=
  C3_data_info_soft_fail_amended pageC3 [] "88" "Community 2" "5"
    [("Size:", "Size: 10K<n<100K")] rfl rfl rfl rfl rfl

theorem crawlOrgArticles_get_self (idx : String) :
    ∀ (arts : List (Except Unit String)) (st : List (String × List String)),
      assocGet idx (crawlOrgArticles idx arts st) =
        if collectedLinks arts = [] then assocGet idx st
        else some ((assocGet idx st).getD [] ++ collectedLinks arts) := by
  intro arts
  induction arts with
  | nil => intro st; simp [crawlOrgArticles, collectedLinks]
  | cons e rest ih =>
    intro st
    cases e with
    | error u => simp [crawlOrgArticles, collectedLinks]
    | ok link =>
      show assocGet idx (crawlOrgArticles idx rest
          (assocSet idx ((assocGet idx st).getD [] ++ [link]) st)) = _
      rw [ih]
      by_cases h : collectedLinks rest = [] <;>
        simp [h, collectedLinks, assocGet_assocSet_self]

theorem crawlOrgArticles_get_ne {idx j : String} (h : idx ≠ j) :
    ∀ (arts : List (Except Unit String)) (st : List (String × List String)),
      assocGet j (crawlOrgArticles idx arts st) = assocGet j st := by
  intro arts
  induction arts with
  | nil => intro st; rfl
  | cons e rest ih =>
    intro st
    cases e with
    | error u => rfl
    | ok link =>
      show assocGet j (crawlOrgArticles idx rest
          (assocSet idx ((assocGet idx st).getD [] ++ [link]) st)) = _
      rw [ih, assocGet_assocSet_ne h]

theorem crawlStep_get_ne (sm : String) (env : String → List (Except Unit String))
    {j : String} (p : String × Option String) (h : p.1 ≠ j)
    (st : List (String × List String)) :
    assocGet j (crawlStep sm env st p) = assocGet j st := by
  obtain ⟨i, tgt⟩ := p
  cases tgt with
  | none => rfl
  | some t =>
    by_cases ht : t = ""
    · simp [crawlStep, ht]
    · cases hg : get_related_links sm (some t) with
      | error e => simp [crawlStep, ht, hg]
      | ok u => simp [crawlStep, ht, hg, crawlOrgArticles_get_ne h]

theorem foldl_crawlStep_get_ne (sm : String) (env : String → List (Except Unit String))
    {j : String} :
    ∀ (ts : List (String × Option String)) (st : List (String × List String)),
      (∀ p ∈ ts, p.1 ≠ j) →
      assocGet j (ts.foldl (crawlStep sm env) st) = assocGet j st := by
  intro ts
  induction ts with
  | nil => intro st _; rfl
  | cons p ts ih =>
    intro st h
    rw [List.foldl_cons, ih _ (fun q hq => h q (by simp [hq])),
      crawlStep_get_ne sm env p (h p (by simp)) st]

theorem crawl_get_main (sm m : String) (env : String → List (Except Unit String))
    (ts1 ts2 : List (String × Option String)) (j tj : String)
    (hm : assocGet sm sort_map = some m) (htj : tj ≠ "")
    (h1 : ∀ p ∈ ts1, p.1 ≠ j) (h2 : ∀ p ∈ ts2, p.1 ≠ j) :
    assocGet j ((ts1 ++ (j, some tj) :: ts2).foldl (crawlStep sm env) []) =
      if collectedLinks (env j) = [] then none
      else some (collectedLinks (env j)) := by
  rw [List.foldl_append, List.foldl_cons, foldl_crawlStep_get_ne sm env ts2 _ h2]
  have hbase : assocGet j (ts1.foldl (crawlStep sm env) []) = none := by
    rw [foldl_crawlStep_get_ne sm env ts1 [] h1]; rfl
  show assocGet j (crawlStep sm env (ts1.foldl (crawlStep sm env) []) (j, some tj)) = _
  simp only [crawlStep, htj, if_false, get_related_links, hm]
  rw [crawlOrgArticles_get_self, hbase]
  by_cases h : collectedLinks (env j) = [] <;> simp [h]

theorem collectedLinks_map_ok (ls : List String) :
    collectedLinks (ls.map Except.ok) = ls := by
  induction ls with
  | nil => rfl
  | cons l ls ih => simp [collectedLinks, ih]

theorem collectedLinks_map_ok_append_error (ls : List String) (u : Unit)
    (rest : List (Except Unit String)) :
    collectedLinks (ls.map Except.ok ++ Except.error u :: rest) = ls := by
  induction ls with
  | nil => rfl
  | cons l ls ih => simp [collectedLinks, ih]

/-- C8: an exception raised while processing one organization is caught,
the organization skipped, and discovery continues — for any environment
(in particular ones where other organizations raise at any point), an
organization `j` whose articles all succeed still gets all its links in the
returned `OrganizationLinkMap`, and the function returns normally so the map
is persisted after all organizations were attempted. -/
theorem C8_discovery_error_isolated (sm m : String)
    (env : String → List (Except Unit String))
    (ts1 ts2 : List (String × Option String)) (j tj : String) (ls : List String)
    (hm : assocGet sm sort_map = some m) (htj : tj ≠ "")
    (h1 : ∀ p ∈ ts1, p.1 ≠ j) (h2 : ∀ p ∈ ts2, p.1 ≠ j)
    (henv : env j = ls.map Except.ok) (hls : ls ≠ []) :
    ∃ res, crawl_dataset_links sm env (ts1 ++ (j, some tj) :: ts2) = Except.ok res ∧
      assocGet j res = some ls := by
  refine ⟨_, rfl, ?_⟩
  rw [crawl_get_main sm m env ts1 ts2 j tj hm htj h1 h2, henv, collectedLinks_map_ok]
  simp [hls]

/-- Discovery environment for the C8 witness: organization "1" raises
immediately, organization "2" yields two links. -/
def envC8 : String → List (Except Unit String) :=
  fun i => if i = "2" then [Except.ok "l1", Except.ok "l2"] else [Except.error ()]

/-- Witness for C8: organization "1" raises, yet organization "2"'s links
are both present in the returned map. -/
theorem C8_discovery_error_isolated_witness :
    ∃ res, crawl_dataset_links "downloads" envC8
        [("1", some "https://huggingface.co/orgA"), ("2", some "https://huggingface.co/orgB")] =
        Except.ok res ∧
      assocGet "2" res = some ["l1", "l2"] :=
  C8_discovery_error_isolated "downloads" "downloads" envC8
    [("1", some "https://huggingface.co/orgA")] [] "2" "https://huggingface.co/orgB"
    ["l1", "l2"] rfl (by decide) (by decide) (by decide) rfl (by decide)

/-- C9: link discovery is not atomic per organization — if an organization's
article processing raises after some links were appended, the
already-collected links remain in that organization's entry of the returned
map, so a failed organization appears with a partial link list. -/
theorem C9_partial_org_links_remain (sm m : String)
    (env : String → List (Except Unit String))
    (ts1 ts2 : List (String × Option String)) (i ti : String) (ls : List String)
    (rest : List (Except Unit String))
    (hm : assocGet sm sort_map = some m) (hti : ti ≠ "")
    (h1 : ∀ p ∈ ts1, p.1 ≠ i) (h2 : ∀ p ∈ ts2, p.1 ≠ i)
    (henv : env i = ls.map Except.ok ++ Except.error () :: rest) (hls : ls ≠ []) :
    ∃ res, crawl_dataset_links sm env (ts1 ++ (i, some ti) :: ts2) = Except.ok res ∧
      assocGet i res = some ls := by
  refine ⟨_, rfl, ?_⟩
  rw [crawl_get_main sm m env ts1 ts2 i ti hm hti h1 h2, henv,
    collectedLinks_map_ok_append_error]
  simp [hls]

/-- Discovery environment for the C9 witness: organization "1" yields one
link, then raises, then would have yielded another. -/
def envC9 : String → List (Except Unit String) :=
  fun i => if i = "1" then [Except.ok "l1", Except.error (), Except.ok "l2"] else []

/-- Witness for C9: organization "1" fails partway and still appears in the
map with its partial link list. -/
theorem C9_partial_org_links_remain_witness :
    ∃ res, crawl_dataset_links "downloads" envC9
        [("1", some "https://huggingface.co/orgA")] = Except.ok res ∧
      assocGet "1" res = some ["l1"] :=
  C9_partial_org_links_remain "downloads" "downloads" envC9 [] []
    "1" "https://huggingface.co/orgA" ["l1"] [Except.ok "l2"]
    rfl (by decide) (by decide) (by decide) rfl (by decide)

theorem lookupEntry_setEntry_self (d : List (String × List (String × Record)))
    (o n : String) (r : Record) : lookupEntry (setEntry o n r d) o n = some r := by
  unfold lookupEntry setEntry
  rw [assocGet_assocSet_self]
  simp [assocGet_assocSet_self]

theorem lookupEntry_setEntry_isSome (d : List (String × List (String × Record)))
    (o n o' n' : String) (r : Record) (h : (lookupEntry d o n).isSome = true) :
    (lookupEntry (setEntry o' n' r d) o n).isSome = true := by
  unfold lookupEntry setEntry at *
  by_cases ho : o' = o
  · subst ho
    rw [assocGet_assocSet_self]
    cases hm : assocGet o' d with
    | none => rw [hm] at h; simp at h
    | some m =>
      rw [hm] at h
      simp only [Option.some_bind] at h ⊢
      simp only [Option.getD_some]
      by_cases hn : n' = n
      · subst hn; rw [assocGet_assocSet_self]; rfl
      · rw [assocGet_assocSet_ne hn]; exact h
  · rw [assocGet_assocSet_ne ho]
    exact h

theorem processLink_establishes (ssp : String) (env : String → LinkEnv)
    (st : CrawlState) (l : String) :
    (lookupEntry (processLink ssp env st l).details (orgSeg l) (lastSeg l)).isSome = true ∨
    l ∈ (processLink ssp env st l).exceptions := by
  by_cases h1 : (env l).preErr
  · right; simp [processLink, h1]
  · by_cases h2 : (env l).shotErr
    · left; simp [processLink, h1, h2, lookupEntry_setEntry_self]
    · cases hE : extract_related_data ((env l).page)
        ((lookupEntry st.details (orgSeg l) (lastSeg l)).getD []) with
      | error e => left; simp [processLink, h1, h2, hE, lookupEntry_setEntry_self]
      | ok pr =>
        obtain ⟨r1, aid⟩ := pr
        by_cases h3 : aid ≠ "" ∧ (env l).arxivErr = true
        · left; simp [processLink, h1, h2, hE, h3, lookupEntry_setEntry_self]
        · left; simp [processLink, h1, h2, hE, h3, lookupEntry_setEntry_self]

theorem processLink_preserves_entry (ssp : String) (env : String → LinkEnv)
    (st : CrawlState) (l o n : String)
    (h : (lookupEntry st.details o n).isSome = true) :
    (lookupEntry (processLink ssp env st l).details o n).isSome = true := by
  by_cases h1 : (env l).preErr
  · simpa [processLink, h1] using h
  · by_cases h2 : (env l).shotErr
    · simp only [processLink, h1, h2]
      simp only [Bool.false_eq_true, if_false, if_true, if_pos h2]
      exact lookupEntry_setEntry_isSome _ _ _ _ _ _ h
    · cases hE : extract_related_data ((env l).page)
        ((lookupEntry st.details (orgSeg l) (lastSeg l)).getD []) with
      | error e =>
        simp only [processLink, h1, h2, hE, Bool.false_eq_true, if_false]
        exact lookupEntry_setEntry_isSome _ _ _ _ _ _ h
      | ok pr =>
        obtain ⟨r1, aid⟩ := pr
        simp only [processLink, h1, h2, hE, Bool.false_eq_true, if_false]
        split
        · exact lookupEntry_setEntry_isSome _ _ _ _ _ _
            (lookupEntry_setEntry_isSome _ _ _ _ _ _ h)
        · exact lookupEntry_setEntry_isSome _ _ _ _ _ _
            (lookupEntry_setEntry_isSome _ _ _ _ _ _
              (lookupEntry_setEntry_isSome _ _ _ _ _ _ h))

theorem processLink_preserves_exception (ssp : String) (env : String → LinkEnv)
    (st : CrawlState) (l x : String) (h : x ∈ st.exceptions) :
    x ∈ (processLink ssp env st l).exceptions := by
  by_cases h1 : (env l).preErr
  · simp [processLink, h1, h]
  · by_cases h2 : (env l).shotErr
    · simp [processLink, h1, h2, h]
    · cases hE : extract_related_data ((env l).page)
        ((lookupEntry st.details (orgSeg l) (lastSeg l)).getD []) with
      | error e => simp [processLink, h1, h2, hE, h]
      | ok pr =>
        obtain ⟨r1, aid⟩ := pr
        by_cases h3 : aid ≠ "" ∧ (env l).arxivErr = true
        · simp [processLink, h1, h2, hE, h3, h]
        · simp [processLink, h1, h2, hE, h3, h]

theorem foldl_processLink_preserves (ssp : String) (env : String → LinkEnv)
    (o n x : String) :
    ∀ (links : List String) (st : CrawlState),
      ((lookupEntry st.details o n).isSome = true ∨ x ∈ st.exceptions) →
      ((lookupEntry (links.foldl (processLink ssp env) st).details o n).isSome = true ∨
        x ∈ (links.foldl (processLink ssp env) st).exceptions) := by
  intro links
  induction links with
  | nil => intro st h; exact h
  | cons l ls ih =>
    intro st h
    rw [List.foldl_cons]
    refine ih (processLink ssp env st l) ?_
    rcases h with h | h
    · exact Or.inl (processLink_preserves_entry ssp env st l o n h)
    · exact Or.inr (processLink_preserves_exception ssp env st l x h)

theorem foldl_processLink_outcome (ssp : String) (env : String → LinkEnv) :
    ∀ (links : List String) (st : CrawlState) (l : String), l ∈ links →
      ((lookupEntry (links.foldl (processLink ssp env) st).details
          (orgSeg l) (lastSeg l)).isSome = true ∨
        l ∈ (links.foldl (processLink ssp env) st).exceptions) := by
  intro links
  induction links with
  | nil => intro st l h; exact absurd h (List.not_mem_nil l)
  | cons l' ls ih =>
    intro st l h
    rw [List.foldl_cons]
    rcases List.mem_cons.mp h with h | h
    · subst h
      exact foldl_processLink_preserves ssp env (orgSeg l) (lastSeg l) l ls
        (processLink ssp env st l) (processLink_establishes ssp env st l)
    · exact ih (processLink ssp env st l') l h

/-- C1 (amended): every processed link yields at least one of the two
outcomes — an entry stored under its `(organization, dataset_name)` key or
membership in the `ExceptionLink` sequence (exhaustiveness).  The claimed
mutual exclusion fails: a link that raises after its entry was created
(e.g. during the arxiv navigation) leaves a populated entry in the output
mapping and is also appended to `ExceptionLink` (see the counterexample). -/
theorem C1_link_outcome_amended (ssp : String) (env : String → LinkEnv)
    (links : List String) (l : String) (hmem : l ∈ links) :
    (lookupEntry (get_all_link_data ssp env links).details
        (orgSeg l) (lastSeg l)).isSome = true ∨
    l ∈ (get_all_link_data ssp env links).exceptions :=
  foldl_processLink_outcome ssp env links ⟨[], []⟩ l hmem

/-- Page environment used by C1's counterexample: all hard queries succeed
and an arxiv id is found. -/
def pageC1 : ExtractEnv :=
  { download := .ok "123", community := .ok "Community 7", like := .ok "Like 3",
    tags := .ok [("Arxiv:", "Arxiv: 2107.06499")],
    dataInfo := .ok [["rows", " 1000 "]], panel := some "panel", relatedMC := [] }

/-- Link environment used by C1: extraction succeeds, then the navigation
to the arxiv page raises. -/
def envC1 : String → LinkEnv :=
  fun _ => { preErr := false, shotErr := false, page := pageC1, arxivErr := true }

/-- The dataset link processed in C1's counterexample. -/
def lC1 : String := "https://huggingface.co/datasets/orgA/dsA"

/-- The (populated) record left in the output mapping by C1's failing link. -/
def rC1 : Record :=
  [("dataset_info", Val.obj [("rows", Val.str "1000")]),
   ("dataset_panel_info", Val.str "panel"),
   ("related_models_collections", Val.obj []),
   ("dataset_tags_info", Val.obj [("Arxiv", Val.str "2107.06499")]),
   ("download_count_last_month", Val.str "123"),
   ("community", Val.str "7"), ("like", Val.str "3")]

/-- C1 counterexample: a link that fails during the arxiv navigation, after
`_extract_related_data` succeeded, ends up with BOTH outcomes — a populated
record entry under `(organization, dataset_name)` AND membership in the
`ExceptionLink` sequence — refuting "never both". -/
theorem C1_link_outcome_counterexample :
    lookupEntry (get_all_link_data "shots" envC1 [lC1]).details "orgA" "dsA" =
      some rC1 ∧
    rC1 ≠ [] ∧
    (get_all_link_data "shots" envC1 [lC1]).exceptions = [lC1] :=
  ⟨rfl, by simp [rC1], rfl⟩

/-- Witness for C1's amended theorem at the concrete link of the
counterexample environment. -/
theorem C1_link_outcome_amended_witness :
    (lookupEntry (get_all_link_data "shots" envC1 [lC1]).details
        (orgSeg lC1) (lastSeg lC1)).isSome = true ∨
    lC1 ∈ (get_all_link_data "shots" envC1 [lC1]).exceptions :=
  C1_link_outcome_amended "shots" envC1 [lC1] lC1 (by simp)

/-- Page environment used by C2: a successful page with a license tag and
no arxiv id. -/
def pageC2 : ExtractEnv :=
  { download := .ok "1,234", community := .ok "Community", like := .ok "7",
    tags := .ok [("License:", "License: cc-by-4.0")],
    dataInfo := .ok [], panel := none, relatedMC := [] }

/-- Link environment used by C2: nothing raises. -/
def envC2 : String → LinkEnv :=
  fun _ => { preErr := false, shotErr := false, page := pageC2, arxivErr := false }

/-- The dataset link processed in C2. -/
def lC2 : String := "https://huggingface.co/datasets/orgA/dsA"

/-- The record `_extract_related_data` assembles for C2's page. -/
def rC2full : Record :=
  [("dataset_info", Val.obj []), ("related_models_collections", Val.obj []),
   ("dataset_tags_info", Val.obj [("License", Val.str "cc-by-4.0")]),
   ("download_count_last_month", Val.str "1,234"),
   ("community", Val.str "0"), ("like", Val.str "7")]

/-- C2: for a link whose extraction fully succeeds,
`_extract_related_data` does assemble the tags mapping, download count,
community, like and related-artifacts fields — but the re-assignment
`dataset_details[organization][dataset_name] = ...` (line 237) then wipes
the entry, so the record finally stored holds ONLY the link and the two
screenshot paths; the assembled fields are discarded, contradicting the
claim (and the function's own documented purpose of returning the detailed
information). -/
theorem C2_assembled_fields_discarded :
    extract_related_data pageC2 [] = Except.ok (rC2full, "") ∧
    assocGet "dataset_tags_info" rC2full =
      some (Val.obj [("License", Val.str "cc-by-4.0")]) ∧
    (get_all_link_data "shots" envC2 [lC2]).exceptions = [] ∧
    lookupEntry (get_all_link_data "shots" envC2 [lC2]).details "orgA" "dsA" =
      some [("link", Val.str lC2), ("paper_screenshot_save_path", Val.str ""),
            ("dataset_screenshot_save_path", Val.str "shots/dsA.png")] :=
  ⟨rfl, rfl, rfl, rfl⟩

end HFCrawler
